import Mathlib

/-!
Shallow embedding of the RSS feed refresh and multi-source deduplication
pipeline (src/actions/user.ts, src/lib/rss/feed-refresh.ts,
src/lib/database/error-handler.ts, src/lib/rss-parser.ts).

Timestamps are modelled as `Int` milliseconds since the epoch
(JavaScript `Date.getTime()`); the persistence store is modelled as a
list of rows, with the Prisma unique-constrained upsert made explicit.
-/

namespace RssPipeline

/-- A row of the `RssArticle` collection, with the fields read and written by
`createRssArticle` and `getArticlesByFeedsAndDateRange` in src/actions/user.ts.
`feedId` is the primary feed, `sourceFeedIds` the provenance multiset. -/
structure RssArticle where
  feedId : String
  guid : String
  sourceFeedIds : List String
  title : String
  link : String
  content : Option String
  summary : Option String
  pubDate : Int
  author : Option String
  categories : List String
  imageUrl : Option String
deriving Repr, DecidableEq

/-- The `ArticleCreateData` input shape of `createRssArticle`
(src/actions/user.ts): one parsed article tagged with its producing feed.
`categories` is optional in the input (`data.categories || []` in the code). -/
structure ArticleCreateData where
  feedId : String
  guid : String
  title : String
  link : String
  content : Option String
  summary : Option String
  pubDate : Int
  author : Option String
  categories : Option (List String)
  imageUrl : Option String
deriving Repr, DecidableEq

/-- The row built by the `create` branch of the upsert in `createRssArticle`:
`sourceFeedIds` starts as the singleton of the producing feed. -/
def articleFromCreate (d : ArticleCreateData) : RssArticle :=
  { feedId := d.feedId
    guid := d.guid
    sourceFeedIds := [d.feedId]
    title := d.title
    link := d.link
    content := d.content
    summary := d.summary
    pubDate := d.pubDate
    author := d.author
    categories := d.categories.getD []
    imageUrl := d.imageUrl }

/-- The `update` branch of the upsert in `createRssArticle`:
`sourceFeedIds: { push: data.feedId }` appends the feed id (no dedup) and
touches no other field. -/
def pushSourceFeed (fid : String) (a : RssArticle) : RssArticle :=
  { a with sourceFeedIds := a.sourceFeedIds ++ [fid] }

/-- `prisma.rssArticle.upsert({ where: { guid }, update, create })` from
`createRssArticle` (src/actions/user.ts lines 67-87): if a row with the guid
exists it is updated in place, otherwise a fresh row is inserted. -/
def upsertArticle (db : List RssArticle) (d : ArticleCreateData) : List RssArticle :=
  if db.any (fun a => a.guid == d.guid) then
    db.map (fun a => if a.guid == d.guid then pushSourceFeed d.feedId a else a)
  else
    db ++ [articleFromCreate d]

/-- Rows of the store holding a given guid. -/
def findByGuid (db : List RssArticle) (g : String) : List RssArticle :=
  db.filter (fun a => a.guid == g)

/-- Errors thrown by the persistence layer, as distinguished by
src/lib/database/error-handler.ts: a `Prisma.PrismaClientKnownRequestError`
carries a `code` (such as "P2002"); anything else is a plain `Error` with a
message. -/
inductive DbError where
  | prismaKnown (code : String) (msg : String)
  | plain (msg : String)
deriving Repr, DecidableEq

/-- `isPrismaError` (src/lib/database/error-handler.ts): the
`instanceof Prisma.PrismaClientKnownRequestError` type guard. -/
def isPrismaError : DbError → Bool
  | .prismaKnown _ _ => true
  | .plain _ => false

/-- The `code` property read by `bulkCreateRssArticles` after the type
guard; `none` for a plain `Error`. -/
def errorCode : DbError → Option String
  | .prismaKnown c _ => some c
  | .plain _ => none

/-- `handlePrismaError` (src/lib/database/error-handler.ts): maps a known
Prisma error to a plain `Error` with a contextual message. -/
def handlePrismaError (code context : String) : DbError :=
  if code == "P2002" then .plain (context ++ ": Duplicate entry found")
  else if code == "P2025" then .plain (context ++ ": Record not found")
  else if code == "P2003" then .plain (context ++ ": Foreign key constraint failed")
  else .plain (context ++ ": Database error (" ++ code ++ ")")

/-- `handleDatabaseError` (src/lib/database/error-handler.ts): wraps any
error with the operation context; a known Prisma error goes through
`handlePrismaError` and so is re-thrown as a plain `Error`. -/
def handleDatabaseError (e : DbError) (operation : String) : DbError :=
  match e with
  | .prismaKnown code _ => handlePrismaError code ("Failed to " ++ operation)
  | .plain msg => .plain ("Failed to " ++ operation ++ ": " ++ msg)

/-- `wrapDatabaseOperation` (src/lib/database/error-handler.ts): runs the
operation and funnels any failure through `handleDatabaseError`. -/
def wrapDatabaseOperation (op : Except DbError α) (operationName : String) :
    Except DbError α :=
  match op with
  | .ok v => .ok v
  | .error e => .error (handleDatabaseError e operationName)

/-- `createRssArticle` (src/actions/user.ts lines 65-89): the guid-keyed
upsert wrapped in `wrapDatabaseOperation`. `raceOutcome` models whether the
database rejects this particular upsert attempt (for example a P2002
duplicate-key race) instead of performing it. -/
def createRssArticle (db : List RssArticle) (d : ArticleCreateData)
    (raceOutcome : Option DbError) : Except DbError (List RssArticle) :=
  wrapDatabaseOperation
    (match raceOutcome with
      | some e => Except.error e
      | none => Except.ok (upsertArticle db d))
    "create RSS article"

/-- The `BulkOperationResult` counters of `bulkCreateRssArticles`. -/
structure BulkOperationResult where
  created : Nat
  skipped : Nat
  errors : Nat
deriving Repr, DecidableEq

/-- The sequential `for` loop of `bulkCreateRssArticles` (src/actions/user.ts
lines 103-115), with `i` the index of the next record and `oracle i` the
database outcome for the i-th upsert attempt. A caught error is counted as
`skipped` exactly when it passes `isPrismaError` with code "P2002", else as
`errors`. -/
def bulkCreateGo (oracle : Nat → Option DbError) :
    Nat → List RssArticle → BulkOperationResult → List ArticleCreateData →
    List RssArticle × BulkOperationResult
  | _, db, res, [] => (db, res)
  | i, db, res, d :: rest =>
    match createRssArticle db d (oracle i) with
    | .ok db' => bulkCreateGo oracle (i + 1) db' { res with created := res.created + 1 } rest
    | .error e =>
      if isPrismaError e && errorCode e == some "P2002" then
        bulkCreateGo oracle (i + 1) db { res with skipped := res.skipped + 1 } rest
      else
        bulkCreateGo oracle (i + 1) db { res with errors := res.errors + 1 } rest

/-- `bulkCreateRssArticles` (src/actions/user.ts lines 94-118): processes the
batch in input order, classifying each record's outcome, and returns the
final store with the aggregate counts. -/
def bulkCreateRssArticles (db : List RssArticle) (articles : List ArticleCreateData)
    (oracle : Nat → Option DbError) : List RssArticle × BulkOperationResult :=
  bulkCreateGo oracle 0 db { created := 0, skipped := 0, errors := 0 } articles

/-- The `where` clause of `getArticlesByFeedsAndDateRange`: primary feed in
the requested list OR provenance set intersecting it (`hasSome`), AND
`pubDate` within `[startDate, endDate]` (`gte`/`lte`, inclusive). -/
def articleMatches (feedIds : List String) (startDate endDate : Int)
    (a : RssArticle) : Bool :=
  (feedIds.contains a.feedId || a.sourceFeedIds.any (fun s => feedIds.contains s))
    && (startDate ≤ a.pubDate && a.pubDate ≤ endDate)

/-- The `orderBy: { pubDate: "desc" }` ordering relation: a row precedes
another when its publish date is at least as recent. -/
def pubDateGe (a b : RssArticle) : Prop := b.pubDate ≤ a.pubDate

instance : DecidableRel pubDateGe := fun a b => Int.decLe b.pubDate a.pubDate

instance : IsTotal RssArticle pubDateGe := ⟨fun a b => le_total b.pubDate a.pubDate⟩

instance : IsTrans RssArticle pubDateGe := ⟨fun _ _ _ hab hbc => le_trans hbc hab⟩

/-- A retrieval result row: the article plus the derived `sourceCount`. -/
structure ArticleWithCount where
  article : RssArticle
  sourceCount : Nat
deriving Repr, DecidableEq

/-- `getArticlesByFeedsAndDateRange` (src/actions/user.ts lines 124-157):
filter by feed membership and date window, order by `pubDate` descending,
`take limit` (default 100), then augment each row with
`sourceCount = sourceFeedIds.length`. -/
def getArticlesByFeedsAndDateRange (db : List RssArticle) (feedIds : List String)
    (startDate endDate : Int) (limit : Nat) : List ArticleWithCount :=
  ((((db.filter (articleMatches feedIds startDate endDate)).insertionSort
      pubDateGe).take limit).map
    (fun a => { article := a, sourceCount := a.sourceFeedIds.length }))

/-- A row of the `RssFeed` collection, with the fields read by
`getFeedsToRefresh` (src/lib/rss/feed-refresh.ts). -/
structure RssFeed where
  id : String
  url : String
  lastFetched : Option Int
deriving Repr, DecidableEq

/-- The `findFirst({ where: { url }, orderBy: { lastFetched: "desc" } })`
lookup of `getFeedsToRefresh`: the most recent non-null `lastFetched` among
all feed rows sharing the URL, or `none` when every such row is unfetched. -/
def mostRecentFetch (db : List RssFeed) (url : String) : Option Int :=
  ((db.filter (fun f => f.url == url)).filterMap (fun f => f.lastFetched)).max?

/-- `CACHE_WINDOW` (src/lib/rss/feed-refresh.ts): 3 hours in milliseconds. -/
def CACHE_WINDOW : Int := 3 * 60 * 60 * 1000

/-- The loop body of `getFeedsToRefresh` with the cache window as the tunable
constant the spec describes: a queried feed is pushed when no feed sharing
its URL was ever fetched, or when the most recent such fetch is strictly
older than the window. -/
def getFeedsToRefreshWith (db : List RssFeed) (feedIds : List String)
    (now window : Int) : List String :=
  (db.filter (fun f => feedIds.contains f.id)).filterMap (fun f =>
    match mostRecentFetch db f.url with
    | none => some f.id
    | some t => if now - t > window then some f.id else none)

/-- `getFeedsToRefresh` (src/lib/rss/feed-refresh.ts lines 26-71), at the
production `CACHE_WINDOW`. -/
def getFeedsToRefresh (db : List RssFeed) (feedIds : List String) (now : Int) :
    List String :=
  getFeedsToRefreshWith db feedIds now CACHE_WINDOW

/-- Staleness as the spec words it: no feed sharing the URL was ever
fetched, or `now − mostRecentFetch` exceeds the cache window. -/
def staleSpec (db : List RssFeed) (now window : Int) (f : RssFeed) : Prop :=
  match mostRecentFetch db f.url with
  | none => True
  | some t => now - t > window

instance (db : List RssFeed) (now window : Int) (f : RssFeed) :
    Decidable (staleSpec db now window f) := by
  unfold staleSpec
  cases mostRecentFetch db f.url <;> simp <;> infer_instance

/-- One result of `Promise.allSettled`: fulfilled with a value or rejected
with a reason. -/
inductive SettledResult (ε α : Type) where
  | fulfilled (value : α)
  | rejected (reason : ε)
deriving Repr, DecidableEq

/-- Whether a settled result has `status === "fulfilled"`. -/
def SettledResult.isFulfilled : SettledResult ε α → Bool
  | .fulfilled _ => true
  | .rejected _ => false

/-- How `Promise.allSettled` records one task: fulfilled with its value or
rejected with the thrown reason. -/
def settleOne (f : α → Except ε β) (x : α) : SettledResult ε β :=
  match f x with
  | .ok v => SettledResult.fulfilled v
  | .error e => SettledResult.rejected e

/-- `Promise.allSettled(xs.map(f))`: every task is settled independently;
no rejection aborts a sibling or escapes the join. -/
def allSettled (f : α → Except ε β) (xs : List α) : List (SettledResult ε β) :=
  xs.map (settleOne f)

/-- The `filter(r => r.status === "fulfilled").length` count of
`prepareFeedsAndArticles`. -/
def countFulfilled (rs : List (SettledResult ε α)) : Nat :=
  (rs.filter (fun r => r.isFulfilled)).length

/-- The `filter(r => r.status === "rejected").length` count of
`prepareFeedsAndArticles`. -/
def countRejected (rs : List (SettledResult ε α)) : Nat :=
  (rs.filter (fun r => !r.isFulfilled)).length

/-- `ARTICLE_LIMIT` (src/lib/rss/feed-refresh.ts). -/
def ARTICLE_LIMIT : Nat := 100

/-- The one error `prepareFeedsAndArticles` itself throws: the empty-window
abort. Per-feed fetch failures are settled inside the orchestrator and are
not of this kind. -/
inductive PrepareError where
  | noArticlesFound (msg : String)
deriving Repr, DecidableEq

/-- What `prepareFeedsAndArticles` produces on success: the logged refresh
summary counts and the retrieved article list. -/
structure PrepareOutput where
  successful : Nat
  failed : Nat
  articles : List ArticleWithCount
deriving Repr, DecidableEq

/-- Application of the settled refresh outcomes to the article store: each
fulfilled `fetchAndStoreFeed` has run its parsed articles through
`bulkCreateRssArticles` (src/actions/rss-fetch.ts); a rejected one changed
nothing. -/
def applySettled (articleDb : List RssArticle)
    (rs : List (SettledResult String (List ArticleCreateData))) : List RssArticle :=
  rs.foldl (fun db r =>
    match r with
    | SettledResult.fulfilled arts => (bulkCreateRssArticles db arts (fun _ => none)).1
    | SettledResult.rejected _ => db) articleDb

/-- `prepareFeedsAndArticles` (src/lib/rss/feed-refresh.ts lines 77-116):
classify stale feeds, refresh them via `Promise.allSettled` (a per-feed
refresh is `fetchFeed feedId`, an `Except` capturing that feed's parsed
articles or its thrown error), retrieve the date window, and throw the
no-articles error iff the retrieval is empty. -/
def prepareFeedsAndArticles (feedDb : List RssFeed) (articleDb : List RssArticle)
    (fetchFeed : String → Except String (List ArticleCreateData))
    (feedIds : List String) (startDate endDate now : Int) :
    Except PrepareError PrepareOutput :=
  let feedsToRefresh := getFeedsToRefresh feedDb feedIds now
  let refreshResults := allSettled fetchFeed feedsToRefresh
  let db1 := applySettled articleDb refreshResults
  let articles := getArticlesByFeedsAndDateRange db1 feedIds startDate endDate ARTICLE_LIMIT
  if articles.length == 0 then
    Except.error (PrepareError.noArticlesFound
      "No articles found for the selected feeds and date range")
  else
    Except.ok
      { successful := countFulfilled refreshResults
        failed := countRejected refreshResults
        articles := articles }

/-- The identity-relevant fields of a parsed feed item
(src/lib/rss-parser.ts); `none` models a JavaScript `undefined` field. -/
structure FeedItem where
  guid : Option String
  link : Option String
  title : Option String
deriving Repr, DecidableEq

/-- JavaScript truthiness of an optional string: `undefined` and `""` are
falsy. -/
def jsTruthy (o : Option String) : Bool :=
  match o with
  | some s => s != ""
  | none => false

/-- JavaScript `a || b` on an optional string. -/
def jsOrString (a : Option String) (b : String) : String :=
  match a with
  | some s => if s == "" then b else s
  | none => b

/-- JavaScript template interpolation of an optional string: `undefined`
prints as "undefined". -/
def templateStr (o : Option String) : String :=
  match o with
  | some s => s
  | none => "undefined"

/-- The identity-key derivation of `extractArticles` (src/lib/rss-parser.ts
line 97): `item.guid || item.link || feedId ++ "-" ++ item.title`. -/
def deriveGuid (item : FeedItem) (feedId : String) : String :=
  jsOrString item.guid (jsOrString item.link (feedId ++ "-" ++ templateStr item.title))

/-- A minimal concrete article record for scenario instantiations. -/
def sampleCreate (g fid : String) : ArticleCreateData :=
  { feedId := fid
    guid := g
    title := "t"
    link := "l"
    content := none
    summary := none
    pubDate := 5
    author := none
    categories := none
    imageUrl := none }

/- ===================== theorems ===================== -/

lemma guid_pushSourceFeed (fid : String) (a : RssArticle) :
    (pushSourceFeed fid a).guid = a.guid := rfl

lemma any_guid_eq_false_of_findByGuid_nil {db : List RssArticle} {g : String}
    (h : findByGuid db g = []) : db.any (fun a => a.guid == g) = false := by
  rw [findByGuid, List.filter_eq_nil_iff] at h
  rw [Bool.eq_false_iff]
  intro hc
  rw [List.any_eq_true] at hc
  obtain ⟨a, ha, hpa⟩ := hc
  exact h a ha hpa

lemma findByGuid_upsert_absent {db : List RssArticle} (d : ArticleCreateData)
    (h : findByGuid db d.guid = []) :
    findByGuid (upsertArticle db d) d.guid = [articleFromCreate d] := by
  have hany := any_guid_eq_false_of_findByGuid_nil h
  rw [upsertArticle, hany]
  simp only [Bool.false_eq_true, if_false]
  rw [findByGuid, List.filter_append]
  rw [findByGuid] at h
  rw [h, List.nil_append]
  simp [articleFromCreate]

lemma findByGuid_map_upd (db : List RssArticle) (d : ArticleCreateData) :
    findByGuid
        (db.map (fun a => if a.guid == d.guid then pushSourceFeed d.feedId a else a))
        d.guid
      = (findByGuid db d.guid).map (pushSourceFeed d.feedId) := by
  induction db with
  | nil => rfl
  | cons a t ih =>
    simp only [findByGuid] at ih ⊢
    rw [List.map_cons, List.filter_cons, List.filter_cons]
    cases hg : (a.guid == d.guid) with
    | true =>
      simp only [if_pos rfl, if_true]
      rw [guid_pushSourceFeed, hg, if_pos rfl, List.map_cons, ih]
    | false =>
      simp only [if_neg Bool.false_ne_true]
      rw [hg, if_neg Bool.false_ne_true, ih]

lemma findByGuid_upsert_present {db : List RssArticle} (d : ArticleCreateData)
    {a : RssArticle} (h : findByGuid db d.guid = [a]) :
    findByGuid (upsertArticle db d) d.guid = [pushSourceFeed d.feedId a] := by
  have hmem : a ∈ findByGuid db d.guid := by rw [h]; exact List.mem_singleton_self a
  have hsplit := List.mem_filter.mp hmem
  have hany : db.any (fun x => x.guid == d.guid) = true :=
    List.any_eq_true.mpr ⟨a, hsplit.1, hsplit.2⟩
  rw [upsertArticle, if_pos hany, findByGuid_map_upd, h, List.map_cons, List.map_nil]

lemma findByGuid_upsert_unique (db : List RssArticle) (d : ArticleCreateData)
    (h : (findByGuid db d.guid).length ≤ 1) :
    (findByGuid (upsertArticle db d) d.guid).length = 1 := by
  cases hf : findByGuid db d.guid with
  | nil => rw [findByGuid_upsert_absent d hf]; rfl
  | cons a t =>
    have ht : t = [] := by
      rw [hf] at h
      simpa using h
    subst ht
    rw [findByGuid_upsert_present d hf]
    rfl

/-- C1: the guid-keyed upsert keeps exactly one canonical row per guid:
an absent guid creates a row whose source set is the singleton of the feed
id; a present guid appends the incoming feed id to the unique existing
row's source set with no dedup; and the concrete round-trip — upsert guid g
from f1, then from f2, then from f1 again — yields one row with source
counts 2 after the second upsert and 3 after the third. -/
theorem C1_upsert_dedupes_by_guid :
    (∀ (db : List RssArticle) (d : ArticleCreateData),
      ((findByGuid db d.guid).length ≤ 1 →
        (findByGuid (upsertArticle db d) d.guid).length = 1) ∧
      (findByGuid db d.guid = [] →
        findByGuid (upsertArticle db d) d.guid = [articleFromCreate d] ∧
        (articleFromCreate d).sourceFeedIds = [d.feedId]) ∧
      (∀ a : RssArticle, findByGuid db d.guid = [a] →
        findByGuid (upsertArticle db d) d.guid = [pushSourceFeed d.feedId a] ∧
        (pushSourceFeed d.feedId a).sourceFeedIds = a.sourceFeedIds ++ [d.feedId])) ∧
    ((upsertArticle (upsertArticle [] (sampleCreate "g" "f1"))
        (sampleCreate "g" "f2")).map (fun a => a.sourceFeedIds.length) = [2] ∧
      (upsertArticle (upsertArticle (upsertArticle [] (sampleCreate "g" "f1"))
          (sampleCreate "g" "f2"))
        (sampleCreate "g" "f1")).map (fun a => a.sourceFeedIds.length) = [3]) := by
  refine ⟨fun db d => ⟨findByGuid_upsert_unique db d, fun h => ⟨findByGuid_upsert_absent d h, rfl⟩,
    fun a h => ⟨findByGuid_upsert_present d h, rfl⟩⟩, ?_, ?_⟩ <;> rfl

/-- Witness for C1 at a concrete store: after inserting guid "g" from feed
"f1", a second upsert of "g" from "f2" updates the unique row in place. -/
theorem C1_upsert_dedupes_by_guid_witness :
    findByGuid
        (upsertArticle (upsertArticle [] (sampleCreate "g" "f1")) (sampleCreate "g" "f2"))
        "g"
      = [pushSourceFeed "f2" (articleFromCreate (sampleCreate "g" "f1"))] := by
  have h := ((C1_upsert_dedupes_by_guid.1
      (upsertArticle [] (sampleCreate "g" "f1")) (sampleCreate "g" "f2")).2.2
    (articleFromCreate (sampleCreate "g" "f1")) (by rfl)).1
  exact h

/-- C7: when the guid is already present, the upsert leaves every field of
every stored row other than the matching row's source set unchanged: a row
with a different guid is kept verbatim, and the matching row keeps its
title, link, content, summary, publish date, author, categories, image URL
and primary feed id, with only `sourceFeedIds` extended by the incoming
feed id. -/
theorem C7_update_touches_only_source_set :
    ∀ (db : List RssArticle) (d : ArticleCreateData) (a : RssArticle),
      a ∈ db → db.any (fun x => x.guid == d.guid) = true →
      (a.guid ≠ d.guid → a ∈ upsertArticle db d) ∧
      (a.guid = d.guid →
        pushSourceFeed d.feedId a ∈ upsertArticle db d ∧
        (pushSourceFeed d.feedId a).guid = a.guid ∧
        (pushSourceFeed d.feedId a).title = a.title ∧
        (pushSourceFeed d.feedId a).link = a.link ∧
        (pushSourceFeed d.feedId a).content = a.content ∧
        (pushSourceFeed d.feedId a).summary = a.summary ∧
        (pushSourceFeed d.feedId a).pubDate = a.pubDate ∧
        (pushSourceFeed d.feedId a).author = a.author ∧
        (pushSourceFeed d.feedId a).categories = a.categories ∧
        (pushSourceFeed d.feedId a).imageUrl = a.imageUrl ∧
        (pushSourceFeed d.feedId a).feedId = a.feedId ∧
        (pushSourceFeed d.feedId a).sourceFeedIds = a.sourceFeedIds ++ [d.feedId]) := by
  intro db d a hmem hany
  constructor
  · intro hne
    rw [upsertArticle, if_pos hany]
    have : (fun x => if x.guid == d.guid then pushSourceFeed d.feedId x else x) a = a := by
      simp [beq_eq_false_iff_ne.mpr hne]
    exact this ▸ List.mem_map_of_mem _ hmem
  · intro heq
    refine ⟨?_, rfl, rfl, rfl, rfl, rfl, rfl, rfl, rfl, rfl, rfl, rfl⟩
    rw [upsertArticle, if_pos hany]
    have : (fun x => if x.guid == d.guid then pushSourceFeed d.feedId x else x) a
        = pushSourceFeed d.feedId a := by
      simp [heq]
    exact this ▸ List.mem_map_of_mem _ hmem

/-- Witness for C7 at a concrete store holding guid "g" from feed "f1",
upserting "g" again from "f2". -/
theorem C7_update_touches_only_source_set_witness :
    pushSourceFeed "f2" (articleFromCreate (sampleCreate "g" "f1"))
        ∈ upsertArticle [articleFromCreate (sampleCreate "g" "f1")] (sampleCreate "g" "f2") ∧
      (pushSourceFeed "f2" (articleFromCreate (sampleCreate "g" "f1"))).title
        = (articleFromCreate (sampleCreate "g" "f1")).title := by
  have h := (C7_update_touches_only_source_set
      [articleFromCreate (sampleCreate "g" "f1")] (sampleCreate "g" "f2")
      (articleFromCreate (sampleCreate "g" "f1"))
      (List.mem_singleton_self _) (by rfl)).2 rfl
  exact ⟨h.1, h.2.2.1⟩

lemma jsOrString_ne_empty (a : Option String) (b : String) (hb : b ≠ "") :
    jsOrString a b ≠ "" := by
  cases a with
  | none => simpa [jsOrString]
  | some s =>
    by_cases hs : s = ""
    · simpa [jsOrString, hs]
    · simp [jsOrString, hs]

lemma composite_key_ne_empty (a b : String) : a ++ "-" ++ b ≠ "" := by
  intro h
  have hlen : (a ++ "-" ++ b).length = 0 := by rw [h]; rfl
  have hdash : ("-" : String).length = 1 := rfl
  rw [String.length_append, String.length_append, hdash] at hlen
  omega

/-- C8: the derived identity key follows the fixed fallback order native
guid, then link, then feedId-title composite, and is never empty: a truthy
native id is used verbatim regardless of the link, and an item with no
native id and no link yields exactly the composite key. -/
theorem C8_identity_key_fallback :
    ∀ (item : FeedItem) (feedId : String),
      (∀ s : String, item.guid = some s → s ≠ "" → deriveGuid item feedId = s) ∧
      (item.guid = none → item.link = none →
        deriveGuid item feedId = feedId ++ "-" ++ templateStr item.title) ∧
      deriveGuid item feedId ≠ "" := by
  intro item feedId
  refine ⟨?_, ?_, ?_⟩
  · intro s hs hne
    rw [deriveGuid, hs]
    simp [jsOrString, hne]
  · intro hg hl
    rw [deriveGuid, hg, hl]
    rfl
  · exact jsOrString_ne_empty _ _ (jsOrString_ne_empty _ _ (composite_key_ne_empty _ _))

/-- Witness for C8 at concrete items with and without a native id. -/
theorem C8_identity_key_fallback_witness :
    deriveGuid { guid := some "G", link := some "L", title := some "T" } "fid" = "G" ∧
    deriveGuid { guid := none, link := none, title := some "T" } "fid" = "fid" ++ "-" ++ "T" := by
  refine ⟨(C8_identity_key_fallback { guid := some "G", link := some "L", title := some "T" }
      "fid").1 "G" rfl (by decide), ?_⟩
  exact (C8_identity_key_fallback { guid := none, link := none, title := some "T" }
      "fid").2.1 rfl rfl

/-- C9: freshness classification is monotonic in the cache window: a feed
classified stale under window w stays stale under every smaller window. -/
theorem C9_staleness_monotone_in_window :
    ∀ (db : List RssFeed) (ids : List String) (now w wSmall : Int) (fid : String),
      wSmall ≤ w → fid ∈ getFeedsToRefreshWith db ids now w →
      fid ∈ getFeedsToRefreshWith db ids now wSmall := by
  intro db ids now w wSmall fid hw hmem
  rw [getFeedsToRefreshWith, List.mem_filterMap] at hmem ⊢
  obtain ⟨f, hf, hg⟩ := hmem
  refine ⟨f, hf, ?_⟩
  cases hm : mostRecentFetch db f.url with
  | none => rw [hm] at hg; exact hg
  | some t =>
    rw [hm] at hg
    have hg' : (if now - t > w then some f.id else none) = some fid := hg
    show (if now - t > wSmall then some f.id else none) = some fid
    by_cases hc : now - t > w
    · rw [if_pos hc] at hg'
      rw [if_pos (by omega)]
      exact hg'
    · rw [if_neg hc] at hg'
      exact absurd hg' (by simp)

/-- Witness for C9: a never-fetched feed, stale under the 3-hour window, stays stale under the 30-minute window. -/
theorem C9_staleness_monotone_in_window_witness :
    ((30 : Int) * 60 * 1000 ≤ 3 * 60 * 60 * 1000) ∧
    "F2" ∈ getFeedsToRefreshWith [{ id := "F2", url := "U", lastFetched := none }]
      ["F2"] 0 (30 * 60 * 1000) := by
  refine ⟨by norm_num, ?_⟩
  exact C9_staleness_monotone_in_window
    [{ id := "F2", url := "U", lastFetched := none }] ["F2"] 0
    (3 * 60 * 60 * 1000) (30 * 60 * 1000) "F2" (by norm_num) (by decide)

/-- C2: the freshness classifier returns exactly the stale subset of the
requested feeds, where a feed is stale iff no feed record sharing its URL
has a lastFetched timestamp, or now minus the most recent such timestamp
exceeds the window; and in the concrete scenario where F1 and F2 share URL
U with F1 fetched one hour ago, classifying [F2] under a 3-hour window
yields nothing while a 30-minute window yields [F2]. -/
theorem C2_freshness_classifier :
    (∀ (db : List RssFeed) (ids : List String) (now window : Int) (fid : String),
      fid ∈ getFeedsToRefreshWith db ids now window ↔
        ∃ f : RssFeed, f ∈ db ∧ f.id = fid ∧ ids.contains f.id = true ∧
          staleSpec db now window f) ∧
    (∀ now : Int,
      getFeedsToRefreshWith
        [{ id := "F1", url := "U", lastFetched := some (now - 3600000) },
          { id := "F2", url := "U", lastFetched := none }]
        ["F2"] now (3 * 60 * 60 * 1000) = []) ∧
    (∀ now : Int,
      getFeedsToRefreshWith
        [{ id := "F1", url := "U", lastFetched := some (now - 3600000) },
          { id := "F2", url := "U", lastFetched := none }]
        ["F2"] now (30 * 60 * 1000) = ["F2"]) := by
  refine ⟨?_, ?_, ?_⟩
  · intro db ids now window fid
    rw [getFeedsToRefreshWith, List.mem_filterMap]
    constructor
    · rintro ⟨f, hf, hg⟩
      obtain ⟨hfdb, hfin⟩ := List.mem_filter.mp hf
      refine ⟨f, hfdb, ?_, hfin, ?_⟩
      · cases hm : mostRecentFetch db f.url with
        | none => rw [hm] at hg; exact (Option.some_inj.mp hg)
        | some t =>
          rw [hm] at hg
          have hg' : (if now - t > window then some f.id else none) = some fid := hg
          by_cases hc : now - t > window
          · rw [if_pos hc] at hg'; exact Option.some_inj.mp hg'
          · rw [if_neg hc] at hg'; exact absurd hg' (by simp)
      · rw [staleSpec]
        cases hm : mostRecentFetch db f.url with
        | none => trivial
        | some t =>
          rw [hm] at hg
          have hg' : (if now - t > window then some f.id else none) = some fid := hg
          by_cases hc : now - t > window
          · exact hc
          · rw [if_neg hc] at hg'; exact absurd hg' (by simp)
    · rintro ⟨f, hfdb, hid, hin, hstale⟩
      refine ⟨f, List.mem_filter.mpr ⟨hfdb, hin⟩, ?_⟩
      rw [staleSpec] at hstale
      cases hm : mostRecentFetch db f.url with
      | none => exact congrArg some hid
      | some t =>
        rw [hm] at hstale
        show (if now - t > window then some f.id else none) = some fid
        rw [if_pos hstale]
        exact congrArg some hid
  · intro now
    rw [getFeedsToRefreshWith]
    have hfilter : (List.filter (fun f => (["F2"] : List String).contains f.id)
        [({ id := "F1", url := "U", lastFetched := some (now - 3600000) } : RssFeed),
          { id := "F2", url := "U", lastFetched := none }])
        = [{ id := "F2", url := "U", lastFetched := none }] := by
      rfl
    rw [hfilter]
    have hm : mostRecentFetch
        [({ id := "F1", url := "U", lastFetched := some (now - 3600000) } : RssFeed),
          { id := "F2", url := "U", lastFetched := none }] "U" = some (now - 3600000) := by
      rfl
    rw [List.filterMap_cons]
    have hg : (match mostRecentFetch
        [({ id := "F1", url := "U", lastFetched := some (now - 3600000) } : RssFeed),
          { id := "F2", url := "U", lastFetched := none }]
        ("U" : String) with
      | none => some ("F2" : String)
      | some t => if now - t > (3 * 60 * 60 * 1000 : Int) then some "F2" else none) = none := by
      rw [hm]
      show (if now - (now - 3600000) > (3 * 60 * 60 * 1000 : Int) then some "F2" else none) = none
      rw [if_neg (by omega)]
    rw [hg]
    rfl
  · intro now
    rw [getFeedsToRefreshWith]
    have hfilter : (List.filter (fun f => (["F2"] : List String).contains f.id)
        [({ id := "F1", url := "U", lastFetched := some (now - 3600000) } : RssFeed),
          { id := "F2", url := "U", lastFetched := none }])
        = [{ id := "F2", url := "U", lastFetched := none }] := by
      rfl
    rw [hfilter]
    have hm : mostRecentFetch
        [({ id := "F1", url := "U", lastFetched := some (now - 3600000) } : RssFeed),
          { id := "F2", url := "U", lastFetched := none }] "U" = some (now - 3600000) := by
      rfl
    rw [List.filterMap_cons]
    have hg : (match mostRecentFetch
        [({ id := "F1", url := "U", lastFetched := some (now - 3600000) } : RssFeed),
          { id := "F2", url := "U", lastFetched := none }]
        ("U" : String) with
      | none => some ("F2" : String)
      | some t => if now - t > (30 * 60 * 1000 : Int) then some "F2" else none)
        = some "F2" := by
      rw [hm]
      show (if now - (now - 3600000) > (30 * 60 * 1000 : Int) then some "F2" else none)
        = some "F2"
      rw [if_pos (by omega)]
    rw [hg]
    rfl

lemma isPrismaError_handleDatabaseError (e : DbError) (op : String) :
    isPrismaError (handleDatabaseError e op) = false := by
  cases e with
  | plain m => rfl
  | prismaKnown c m =>
    rw [handleDatabaseError, handlePrismaError]
    split_ifs <;> rfl

lemma createRssArticle_error_not_prisma {db : List RssArticle} {d : ArticleCreateData}
    {r : Option DbError} {e : DbError}
    (h : createRssArticle db d r = Except.error e) : isPrismaError e = false := by
  cases r with
  | none => exact absurd h (by simp [createRssArticle, wrapDatabaseOperation])
  | some e0 =>
    have h' : Except.error (ε := DbError) (α := List RssArticle)
        (handleDatabaseError e0 "create RSS article") = Except.error e := h
    have he : handleDatabaseError e0 "create RSS article" = e := by
      injection h'
    rw [← he]
    exact isPrismaError_handleDatabaseError e0 _

lemma bulkCreateGo_skipped (oracle : Nat → Option DbError)
    (arts : List ArticleCreateData) :
    ∀ (i : Nat) (db : List RssArticle) (res : BulkOperationResult),
      (bulkCreateGo oracle i db res arts).2.skipped = res.skipped := by
  induction arts with
  | nil => intro i db res; rfl
  | cons d rest ih =>
    intro i db res
    rw [bulkCreateGo]
    cases hc : createRssArticle db d (oracle i) with
    | ok db' => rw [ih]
    | error e =>
      dsimp only
      rw [if_neg ?hneg]
      · exact ih (i + 1) db _
      case hneg =>
        rw [createRssArticle_error_not_prisma hc]
        simp

lemma bulkCreateGo_counts (oracle : Nat → Option DbError)
    (arts : List ArticleCreateData) :
    ∀ (i : Nat) (db : List RssArticle) (res : BulkOperationResult),
      (bulkCreateGo oracle i db res arts).2.created
        + (bulkCreateGo oracle i db res arts).2.skipped
        + (bulkCreateGo oracle i db res arts).2.errors
      = res.created + res.skipped + res.errors + arts.length := by
  induction arts with
  | nil => intro i db res; simp [bulkCreateGo]
  | cons d rest ih =>
    intro i db res
    rw [bulkCreateGo]
    cases hc : createRssArticle db d (oracle i) with
    | ok db' =>
      rw [ih]
      simp
      omega
    | error e =>
      dsimp only
      split_ifs with hif
      · rw [ih]
        simp
        omega
      · rw [ih]
        simp
        omega

lemma bulkCreateGo_all_ok (arts : List ArticleCreateData) :
    ∀ (i : Nat) (db : List RssArticle) (res : BulkOperationResult),
      (bulkCreateGo (fun _ => none) i db res arts).2.created
        = res.created + arts.length := by
  induction arts with
  | nil => intro i db res; simp [bulkCreateGo]
  | cons d rest ih =>
    intro i db res
    rw [bulkCreateGo]
    show (bulkCreateGo (fun _ => none) (i + 1) (upsertArticle db d)
        { res with created := res.created + 1 } rest).2.created = res.created + (d :: rest).length
    rw [ih]
    simp
    omega

/-- C6 (code bug): the bulk upsert never classifies any outcome as skipped —
`wrapDatabaseOperation` re-throws a Prisma P2002 as a plain Error before
`bulkCreateRssArticles` checks `isPrismaError`, so a duplicate-key race is
reported to the caller as an error: on a one-record batch whose upsert the
database rejects with P2002, the counts are created 0, skipped 0, errors 1. -/
theorem C6_duplicate_race_counted_as_error :
    (∀ (db : List RssArticle) (arts : List ArticleCreateData)
        (oracle : Nat → Option DbError),
      (bulkCreateRssArticles db arts oracle).2.skipped = 0) ∧
    (bulkCreateRssArticles [] [sampleCreate "g" "f1"]
        (fun _ => some (DbError.prismaKnown "P2002" "Unique constraint failed"))).2
      = { created := 0, skipped := 0, errors := 1 } := by
  constructor
  · intro db arts oracle
    exact bulkCreateGo_skipped oracle arts 0 db _
  · rfl

/-- C10: the bulk upsert is total (it never throws past its boundary), its
counts always sum to the batch length, an all-successful batch is counted
entirely as created, and a successful upsert of an already-present guid (a
re-sighting) is counted as created. -/
theorem C10_bulk_counts_invariant :
    (∀ (db : List RssArticle) (arts : List ArticleCreateData)
        (oracle : Nat → Option DbError),
      (bulkCreateRssArticles db arts oracle).2.created
        + (bulkCreateRssArticles db arts oracle).2.skipped
        + (bulkCreateRssArticles db arts oracle).2.errors = arts.length) ∧
    (∀ (db : List RssArticle) (arts : List ArticleCreateData),
      (bulkCreateRssArticles db arts (fun _ => none)).2.created = arts.length) ∧
    ((bulkCreateRssArticles [articleFromCreate (sampleCreate "g" "f1")]
        [sampleCreate "g" "f2"] (fun _ => none)).2
      = { created := 1, skipped := 0, errors := 0 }) := by
  refine ⟨?_, ?_, ?_⟩
  · intro db arts oracle
    have h := bulkCreateGo_counts oracle arts 0 db { created := 0, skipped := 0, errors := 0 }
    simpa [bulkCreateRssArticles] using h
  · intro db arts
    have h := bulkCreateGo_all_ok arts 0 db { created := 0, skipped := 0, errors := 0 }
    simpa [bulkCreateRssArticles] using h
  · rfl

lemma sortedByDate_perm (l : List RssArticle) :
    List.Perm (l.insertionSort pubDateGe) l :=
  List.perm_insertionSort pubDateGe l

/-- C4: every result of the windowed retrieval matches the feed-membership
disjunction, has its publish date inside the inclusive window, and carries
sourceCount equal to the length of its source-feed set (duplicates
included); the result never exceeds the cap and is sorted non-increasing by
publish date; and whenever the matching set fits under the cap, every
matching stored article appears in the result. -/
theorem C4_windowed_retrieval :
    ∀ (db : List RssArticle) (ids : List String) (s e : Int) (lim : Nat),
      (∀ p ∈ getArticlesByFeedsAndDateRange db ids s e lim,
        ((ids.contains p.article.feedId
            || p.article.sourceFeedIds.any (fun x => ids.contains x)) = true) ∧
        s ≤ p.article.pubDate ∧ p.article.pubDate ≤ e ∧
        p.sourceCount = p.article.sourceFeedIds.length) ∧
      (getArticlesByFeedsAndDateRange db ids s e lim).length ≤ lim ∧
      List.Pairwise (fun p q => q.article.pubDate ≤ p.article.pubDate)
        (getArticlesByFeedsAndDateRange db ids s e lim) ∧
      ((db.filter (articleMatches ids s e)).length ≤ lim →
        ∀ a ∈ db, articleMatches ids s e a = true →
          ∃ p ∈ getArticlesByFeedsAndDateRange db ids s e lim, p.article = a) := by
  intro db ids s e lim
  refine ⟨?_, ?_, ?_, ?_⟩
  · intro p hp
    rw [getArticlesByFeedsAndDateRange] at hp
    obtain ⟨a, ha, hpa⟩ := List.mem_map.mp hp
    have hmem : a ∈ (db.filter (articleMatches ids s e)).insertionSort pubDateGe :=
      List.mem_of_mem_take ha
    have hfil : a ∈ db.filter (articleMatches ids s e) :=
      (sortedByDate_perm _).mem_iff.mp hmem
    have hmatch : articleMatches ids s e a = true := (List.mem_filter.mp hfil).2
    rw [articleMatches, Bool.and_eq_true, Bool.and_eq_true] at hmatch
    obtain ⟨h1, h2, h3⟩ := hmatch
    subst hpa
    exact ⟨h1, by simpa using h2, by simpa using h3, rfl⟩
  · rw [getArticlesByFeedsAndDateRange, List.length_map]
    exact le_trans (List.length_take_le lim _) (le_refl lim)
  · rw [getArticlesByFeedsAndDateRange]
    have hsorted : List.Pairwise pubDateGe
        ((db.filter (articleMatches ids s e)).insertionSort pubDateGe) :=
      List.sorted_insertionSort pubDateGe _
    have htake : List.Pairwise pubDateGe
        (((db.filter (articleMatches ids s e)).insertionSort pubDateGe).take lim) :=
      hsorted.sublist (List.take_sublist lim _)
    rw [List.pairwise_map]
    exact htake.imp (fun h => h)
  · intro hlen a hadb hamatch
    have hfil : a ∈ db.filter (articleMatches ids s e) :=
      List.mem_filter.mpr ⟨hadb, hamatch⟩
    have hms : a ∈ (db.filter (articleMatches ids s e)).insertionSort pubDateGe :=
      (sortedByDate_perm _).mem_iff.mpr hfil
    have htake_all :
        ((db.filter (articleMatches ids s e)).insertionSort pubDateGe).take lim
          = (db.filter (articleMatches ids s e)).insertionSort pubDateGe := by
      apply List.take_of_length_le
      rw [(sortedByDate_perm _).length_eq]
      exact hlen
    rw [getArticlesByFeedsAndDateRange, htake_all]
    exact ⟨{ article := a, sourceCount := a.sourceFeedIds.length },
      List.mem_map_of_mem _ hms, rfl⟩

/-- Witness for C4 at a one-article store that fits under the cap. -/
theorem C4_windowed_retrieval_witness :
    ∃ p ∈ getArticlesByFeedsAndDateRange [articleFromCreate (sampleCreate "g" "f1")]
        ["f1"] 0 10 100, p.article = articleFromCreate (sampleCreate "g" "f1") := by
  exact (C4_windowed_retrieval [articleFromCreate (sampleCreate "g" "f1")]
      ["f1"] 0 10 100).2.2.2 (by decide) (articleFromCreate (sampleCreate "g" "f1"))
    (List.mem_singleton_self _) (by decide)

lemma countFulfilled_add_countRejected (rs : List (SettledResult ε α)) :
    countFulfilled rs + countRejected rs = rs.length := by
  induction rs with
  | nil => rfl
  | cons r t ih =>
    rw [countFulfilled, countRejected, List.filter_cons, List.filter_cons]
    cases hr : r.isFulfilled with
    | true =>
      rw [countFulfilled, countRejected] at ih
      simp only [hr, Bool.not_true, if_pos rfl, if_true, if_neg Bool.false_ne_true,
        List.length_cons]
      omega
    | false =>
      rw [countFulfilled, countRejected] at ih
      simp only [hr, Bool.not_false, if_pos rfl, if_true, if_neg Bool.false_ne_true,
        List.length_cons]
      omega

/-- C3: the refresh orchestration settles every per-feed refresh
independently: each settled outcome is a function of that feed's own result
alone, the fulfilled and rejected counts always sum to the number of
refreshed feeds, and in the concrete two-feed scenario where refreshing A
succeeds with one in-window article and refreshing B throws, the
orchestrator returns normally with successful = 1 and failed = 1. -/
theorem C3_settled_refresh_isolation :
    (∀ (f : String → Except String (List ArticleCreateData)) (ids : List String),
      countFulfilled (allSettled f ids) + countRejected (allSettled f ids)
        = ids.length) ∧
    (∀ (f : String → Except String (List ArticleCreateData)) (ids : List String)
        (i : Nat),
      (allSettled f ids)[i]? = (ids[i]?).map (settleOne f)) ∧
    (prepareFeedsAndArticles
        [{ id := "A", url := "ua", lastFetched := none },
          { id := "B", url := "ub", lastFetched := none }]
        []
        (fun fid => if fid == "A" then Except.ok [sampleCreate "g" "A"]
          else Except.error "network error")
        ["A", "B"] 0 10 0
      = Except.ok
          { successful := 1
            failed := 1
            articles := [{ article := articleFromCreate (sampleCreate "g" "A")
                           sourceCount := 1 }] }) := by
  refine ⟨?_, ?_, ?_⟩
  · intro f ids
    rw [countFulfilled_add_countRejected, allSettled, List.length_map]
  · intro f ids i
    rw [allSettled, List.getElem?_map]
  · rfl

/-- C5: the pipeline coordinator raises the typed no-content error exactly
when the windowed retrieval after refresh is empty, and otherwise returns
success — even when every per-feed fetch failed, so a fetch error never
surfaces as (or instead of) this condition. -/
theorem C5_empty_window_raises :
    ∀ (feedDb : List RssFeed) (articleDb : List RssArticle)
      (fetchFeed : String → Except String (List ArticleCreateData))
      (ids : List String) (s e now : Int),
      (getArticlesByFeedsAndDateRange
          (applySettled articleDb (allSettled fetchFeed (getFeedsToRefresh feedDb ids now)))
          ids s e ARTICLE_LIMIT = [] →
        prepareFeedsAndArticles feedDb articleDb fetchFeed ids s e now
          = Except.error (PrepareError.noArticlesFound
              "No articles found for the selected feeds and date range")) ∧
      (getArticlesByFeedsAndDateRange
          (applySettled articleDb (allSettled fetchFeed (getFeedsToRefresh feedDb ids now)))
          ids s e ARTICLE_LIMIT ≠ [] →
        prepareFeedsAndArticles feedDb articleDb fetchFeed ids s e now
          = Except.ok
              { successful := countFulfilled
                  (allSettled fetchFeed (getFeedsToRefresh feedDb ids now))
                failed := countRejected
                  (allSettled fetchFeed (getFeedsToRefresh feedDb ids now))
                articles := getArticlesByFeedsAndDateRange
                  (applySettled articleDb
                    (allSettled fetchFeed (getFeedsToRefresh feedDb ids now)))
                  ids s e ARTICLE_LIMIT }) ∧
      (∀ err, prepareFeedsAndArticles feedDb articleDb fetchFeed ids s e now
          = Except.error err →
        getArticlesByFeedsAndDateRange
          (applySettled articleDb (allSettled fetchFeed (getFeedsToRefresh feedDb ids now)))
          ids s e ARTICLE_LIMIT = [] ∧
        err = PrepareError.noArticlesFound
          "No articles found for the selected feeds and date range") := by
  intro feedDb articleDb fetchFeed ids s e now
  set arts := getArticlesByFeedsAndDateRange
    (applySettled articleDb (allSettled fetchFeed (getFeedsToRefresh feedDb ids now)))
    ids s e ARTICLE_LIMIT with harts
  refine ⟨?_, ?_, ?_⟩
  · intro hempty
    rw [prepareFeedsAndArticles]
    rw [← harts, hempty]
    rfl
  · intro hne
    rw [prepareFeedsAndArticles, ← harts]
    have hlen : (arts.length == 0) = false := by
      rw [beq_eq_false_iff_ne]
      intro h0
      exact hne (List.length_eq_zero.mp h0)
    rw [if_neg ?hpos]
    case hpos =>
      rw [hlen]
      exact Bool.false_ne_true
  · intro err herr
    rw [prepareFeedsAndArticles, ← harts] at herr
    by_cases h0 : arts.length == 0
    · rw [if_pos h0] at herr
      have : PrepareError.noArticlesFound
          "No articles found for the selected feeds and date range" = err := by
        injection herr
      exact ⟨List.length_eq_zero.mp (by simpa using h0), this.symm⟩
    · rw [if_neg h0] at herr
      exact absurd herr (by simp)

/-- Witness for C5: with no feeds and an empty store the retrieval is empty
and the coordinator raises the typed no-content error. -/
theorem C5_empty_window_raises_witness :
    prepareFeedsAndArticles [] [] (fun _ => Except.error "network error")
        ["F1"] 0 10 0
      = Except.error (PrepareError.noArticlesFound
          "No articles found for the selected feeds and date range") := by
  exact (C5_empty_window_raises [] [] (fun _ => Except.error "network error")
    ["F1"] 0 10 0).1 rfl

end RssPipeline
